import Mathlib

/-!  A verification development for the woptipng PNG optimizer (src/main.rs).

Files are modeled by their byte contents (lists of naturals); the size of a
file on disk is the length of that list.  The external tools (convert,
optipng, advpng, oxipng) and the pixel decoder of the image crate are
abstracted as functions packaged in an Env record: for each tool, the
contents it leaves in the file it was invoked on, as a function of the
contents it read, together with its exit status.  Fallible code (the
panicking branch of verify_image) is modeled with Except.
-/

namespace Woptipng

/-- File contents on disk, as a list of bytes. -/
abbrev Bytes := List Nat

/-- Abstraction of the external collaborators: the pixel decoder used by
images_are_identical, and the effect of each external engine on the contents
of the file it is invoked on, together with its exit status.  convert,
optipng and oxipng read a fresh copy of the canonical file, so their
effect is a function of the canonical contents; advpng runs in place on the
working copy at a given compression level. -/
structure Env where
  decode : Bytes → List Nat
  magick : Bytes → Bytes
  magickOk : Bytes → Bool
  optipng : Bytes → Bytes
  optipngOk : Bytes → Bool
  advpng : Nat → Bytes → Bytes
  advpngOk : Nat → Bytes → Bool
  oxipng : Bytes → Bytes
  oxipngOk : Bytes → Bool

/-- images_are_identical (main.rs 118-126): decode both images fully and
compare the pixel sequences for equality. -/
def images_are_identical (env : Env) (image1 image2 : Bytes) : Bool :=
  decide (env.decode image1 = env.decode image2)

/-- The three verification outcomes that verify_image can emit; the fourth
branch of its match (pixels altered and not smaller) panics and is modeled
by the error case of Except. -/
inductive Outcome where
  | improved
  | nogain
  | corrupted
deriving DecidableEq

/-- The on-disk state relevant to one task: the canonical file at self.path
and the working copy at tmp_path. -/
structure FileState where
  canonical : Bytes
  tmp : Bytes
deriving DecidableEq

/-- verify_image (main.rs 187-212).  self.path holds the canonical file; the
backup_image argument is the working copy at tmp_path.  pixel_identical
compares the decoded pixels of the two files; size_new is the canonical
file's on-disk size, size_old the working copy's, and image_got_smaller is
size_new < size_old.  Branches:
(true, true): copy canonical over the working copy (the commit branch);
(true, false): nothing;
(false, true): print an altered-image warning, copy the working copy over
the canonical file;
(false, false): panics, modeled as the error case carrying the state. -/
def verify_image (env : Env) (s : FileState) : Except FileState (FileState × Outcome) :=
  match images_are_identical env s.canonical s.tmp,
        decide (s.canonical.length < s.tmp.length) with
  | true, true => .ok (⟨s.canonical, s.canonical⟩, Outcome.improved)
  | true, false => .ok (s, Outcome.nogain)
  | false, true => .ok (⟨s.tmp, s.tmp⟩, Outcome.corrupted)
  | false, false => .error s

/-- run_imagemagick (main.rs 136-149): copy the canonical file over the
working copy, then invoke convert reading the canonical file and writing the
working copy; the working copy ends as a function of the canonical contents
only.  Returns the exit status, which the caller discards. -/
def run_imagemagick (env : Env) (s : FileState) : FileState × Bool :=
  (⟨s.canonical, env.magick s.canonical⟩, env.magickOk s.canonical)

/-- run_optipng (main.rs 151-159): copy the canonical file over the working
copy, then run optipng in place on the working copy. -/
def run_optipng (env : Env) (s : FileState) : FileState × Bool :=
  (⟨s.canonical, env.optipng s.canonical⟩, env.optipngOk s.canonical)

/-- COMPRESSION_LEVELS of run_advpng (main.rs 162). -/
def compressionLevels : List Nat := [1, 2, 3, 4]

/-- The sequence of advpng invocations inside run_advpng (main.rs 164-172):
each level runs in place on the working copy left by the previous level;
each invocation's exit status is collected. -/
def advpngRuns (env : Env) (t : Bytes) : Bytes × List Bool :=
  compressionLevels.foldl
    (fun acc lvl => (env.advpng lvl acc.1, acc.2 ++ [env.advpngOk lvl acc.1]))
    (t, [])

/-- run_advpng (main.rs 161-175): no fresh copy is made; the tool runs in
place on the current working copy once per compression level, and the
returned status is the conjunction of all the per-level statuses. -/
def run_advpng (env : Env) (s : FileState) : FileState × Bool :=
  (⟨s.canonical, (advpngRuns env s.tmp).1⟩, (advpngRuns env s.tmp).2.all (fun b => b))

/-- run_oxipng (main.rs 177-185): copy the canonical file over the working
copy, then run oxipng in place on the working copy. -/
def run_oxipng (env : Env) (s : FileState) : FileState × Bool :=
  (⟨s.canonical, env.oxipng s.canonical⟩, env.oxipngOk s.canonical)

/-- One iteration of the while loop in optimize (main.rs 234-244): the four
engine passes, each immediately followed by verify_image; the engines' exit
statuses are discarded by the caller. -/
def runIteration (env : Env) (s : FileState) :
    Except FileState (FileState × List Outcome) :=
  match verify_image env (run_imagemagick env s).1 with
  | .error e => .error e
  | .ok (s2, o1) =>
    match verify_image env (run_optipng env s2).1 with
    | .error e => .error e
    | .ok (s4, o2) =>
      match verify_image env (run_advpng env s4).1 with
      | .error e => .error e
      | .ok (s6, o3) =>
        match verify_image env (run_oxipng env s6).1 with
        | .error e => .error e
        | .ok (s8, o4) => .ok (s8, [o1, o2, o3, o4])

/-- The data carried out of the while loop: final canonical and working-copy
contents, the number of iterations executed, all outcomes in order, and the
size_before / size_after values of the last iteration. -/
structure LoopOut where
  c : Bytes
  t : Bytes
  iters : Nat
  outcomes : List Outcome
  lastBefore : Nat
  lastAfter : Nat
deriving DecidableEq

/-- The while loop of optimize (main.rs 230-249).  size_before is read from
the canonical file at the top of each iteration; after the four verified
passes, size_after is read back and the loop continues exactly when
size_before > size_after.  The very first iteration always runs (the
"iteration == 0" disjunct of the loop condition). -/
def optGo (env : Env) (c t : Bytes) : Except FileState LoopOut :=
  match runIteration env ⟨c, t⟩ with
  | .error e => .error e
  | .ok (s', outs) =>
    if h : s'.canonical.length < c.length then
      match optGo env s'.canonical s'.tmp with
      | .error e => .error e
      | .ok r => .ok { r with iters := r.iters + 1, outcomes := outs ++ r.outcomes }
    else
      .ok { c := s'.canonical, t := s'.tmp, iters := 1, outcomes := outs,
            lastBefore := c.length, lastAfter := s'.canonical.length }
termination_by c.length
decreasing_by exact h

/-- The state left behind when a task aborts through the panicking branch of
verify_image: the canonical file's contents and the working-copy file, which
is still on disk because the cleanup after the loop never runs. -/
structure AbortInfo where
  canonical : Bytes
  tmpFile : Option Bytes
deriving DecidableEq

/-- What optimize leaves behind and reports on the non-panicking path
(main.rs 213-269). -/
structure RunInfo where
  finalCanonical : Bytes
  finalTmp : Option Bytes
  iterations : Nat
  outcomes : List Outcome
  originalSize : Nat
  finalSize : Nat
  lastDelta : Int
deriving DecidableEq

/-- The cleanup after the loop (main.rs 250-253): if the working-copy file
exists, remove it. -/
def cleanupTmp (t : Option Bytes) : Option Bytes :=
  if t.isSome then none else t

/-- optimize (main.rs 213-269): record original_size, run the loop, remove
the working copy, report sizes and the last iteration's signed delta.  On
the panic path the cleanup does not run, so the working-copy file is left on
disk (the error case). -/
def optimize (env : Env) (c : Bytes) : Except AbortInfo RunInfo :=
  match optGo env c c with
  | .error e => .error { canonical := e.canonical, tmpFile := some e.tmp }
  | .ok r =>
    .ok { finalCanonical := r.c
        , finalTmp := cleanupTmp (some r.t)
        , iterations := r.iters
        , outcomes := r.outcomes
        , originalSize := c.length
        , finalSize := r.lastAfter
        , lastDelta := (r.lastAfter : Int) - (r.lastBefore : Int) }

/-- A path, as directory components plus a file name. -/
structure ImgPath where
  dir : List String
  fname : List Char
deriving DecidableEq

/-- Rust's Path file_stem for ordinary names: the portion of the file name
before the final dot, or the whole name when it has no dot (main.rs 221). -/
def file_stem (n : List Char) : List Char :=
  if '.' ∈ n then ((n.reverse.dropWhile (fun ch => ch ≠ '.')).drop 1).reverse
  else n

/-- The tmp_path construction in optimize (main.rs 217-224): set_file_name
keeps the parent directory and replaces the file name with the original stem
followed by the _tmp.png suffix. -/
def tmp_path_of (p : ImgPath) : ImgPath :=
  { p with fname := file_stem p.fname ++ ("_tmp.png".toList) }

/-- One unit of scheduler work: the environment seen by the task and the
original contents of the file. -/
structure Task where
  env : Env
  bytes : Bytes

/-- The parallel for_each over all files (main.rs 62-65): every task runs
optimize; a panic in any task propagates out of the loop, so the lines after
it never execute.  This is modeled by Option: none when some task panicked. -/
def runTasks : List Task → Option (List RunInfo)
  | [] => some []
  | t :: ts =>
    match (optimize t.env t.bytes).toOption with
    | none => none
    | some r => (runTasks ts).map (fun rs => r :: rs)

/-- Unsigned 64-bit subtraction as checked by the debug overflow assertion:
the value a - b when it does not underflow, none (a panic) otherwise. -/
def u64CheckedSub (a b : Nat) : Option Nat :=
  if b ≤ a then some (a - b) else none

/-- The final println of main (main.rs 81): it prints
total_file_size_after - total_file_size_before computed in u64. -/
def reportNetDelta (totalBefore totalAfter : Nat) : Option Nat :=
  u64CheckedSub totalAfter totalBefore

/-- The end-of-run summary printed by main (main.rs 67-81): the total size
before, the total size after, and the value printed by the delta line. -/
structure Summary where
  totalBefore : Nat
  totalAfter : Nat
  printedDelta : Option Nat
deriving DecidableEq

/-- main's run over a file list (main.rs 31-82): sum the sizes before, run
every task, re-read the sizes, and print the summary.  When a task panics
the summary lines are never reached. -/
def mainRun (ts : List Task) : Option Summary :=
  let totalBefore := (ts.map (fun t => t.bytes.length)).sum
  match runTasks ts with
  | none => none
  | some rs =>
    let totalAfter := (rs.map (fun r => r.finalSize)).sum
    some { totalBefore := totalBefore
         , totalAfter := totalAfter
         , printedDelta := reportNetDelta totalBefore totalAfter }

/-- The condition that every engine pass preserves decoded pixel content. -/
def PixelPreserving (env : Env) : Prop :=
  (∀ b, env.decode (env.magick b) = env.decode b)
  ∧ (∀ b, env.decode (env.optipng b) = env.decode b)
  ∧ (∀ lvl b, env.decode (env.advpng lvl b) = env.decode b)
  ∧ (∀ b, env.decode (env.oxipng b) = env.decode b)

/-- An environment in which every engine is the identity and decoding is the
identity: every pass preserves both bytes and pixels. -/
def envId : Env where
  decode := fun b => b
  magick := fun b => b
  magickOk := fun _ => true
  optipng := fun b => b
  optipngOk := fun _ => true
  advpng := fun _ b => b
  advpngOk := fun _ _ => true
  oxipng := fun b => b
  oxipngOk := fun _ => true

/-- An environment whose convert pass corrupts the pixels while growing the
file: on a two-byte input it produces the three-byte file 1,1,1. -/
def envCorruptGrow : Env :=
  { envId with magick := fun _ => [1, 1, 1] }

/-- An environment whose convert pass corrupts the pixels without growing
the file: it always produces the one-byte file 5. -/
def envInvalid : Env :=
  { envId with magick := fun _ => [5] }

/-- The report optimize produces for the two-byte file 0,0 under envId:
one iteration, four no-gain steps, nothing changed. -/
def runInfoId : RunInfo :=
  { finalCanonical := [0, 0]
  , finalTmp := none
  , iterations := 1
  , outcomes := [Outcome.nogain, Outcome.nogain, Outcome.nogain, Outcome.nogain]
  , originalSize := 2
  , finalSize := 2
  , lastDelta := 0 }

/-! Helper lemmas about the embedding. -/

theorem images_are_identical_iff (env : Env) (a b : Bytes) :
    images_are_identical env a b = true ↔ env.decode a = env.decode b := by
  simp [images_are_identical]

/-- Exhaustive description of the non-panicking results of verify_image. -/
theorem verify_image_ok_cases (env : Env) (s s' : FileState) (o : Outcome)
    (h : verify_image env s = .ok (s', o)) :
    (o = Outcome.improved ∧ env.decode s.canonical = env.decode s.tmp
      ∧ s.canonical.length < s.tmp.length ∧ s' = ⟨s.canonical, s.canonical⟩)
    ∨ (o = Outcome.nogain ∧ env.decode s.canonical = env.decode s.tmp
      ∧ ¬ s.canonical.length < s.tmp.length ∧ s' = s)
    ∨ (o = Outcome.corrupted ∧ env.decode s.canonical ≠ env.decode s.tmp
      ∧ s.canonical.length < s.tmp.length ∧ s' = ⟨s.tmp, s.tmp⟩) := by
  by_cases hpi : env.decode s.canonical = env.decode s.tmp
    <;> by_cases hsz : s.canonical.length < s.tmp.length
    <;> simp [verify_image, images_are_identical, hpi, hsz] at h
    <;> simp [hpi, hsz, h.1.symm, h.2.symm]

/-- verify_image never shrinks the canonical file. -/
theorem verify_image_canonical_le (env : Env) (s s' : FileState) (o : Outcome)
    (h : verify_image env s = .ok (s', o)) :
    s.canonical.length ≤ s'.canonical.length := by
  rcases verify_image_ok_cases env s s' o h with ⟨_, _, _, h4⟩ | ⟨_, _, _, h4⟩ | ⟨_, _, h3, h4⟩
  · subst h4; exact Nat.le_refl _
  · subst h4; exact Nat.le_refl _
  · subst h4; exact Nat.le_of_lt h3

theorem run_imagemagick_canonical (env : Env) (s : FileState) :
    (run_imagemagick env s).1.canonical = s.canonical := rfl

theorem run_optipng_canonical (env : Env) (s : FileState) :
    (run_optipng env s).1.canonical = s.canonical := rfl

theorem run_advpng_canonical (env : Env) (s : FileState) :
    (run_advpng env s).1.canonical = s.canonical := rfl

theorem run_oxipng_canonical (env : Env) (s : FileState) :
    (run_oxipng env s).1.canonical = s.canonical := rfl

/-- A successful iteration produces exactly four outcomes and never shrinks
the canonical file. -/
theorem runIteration_ok_parts (env : Env) (s sf : FileState) (outs : List Outcome)
    (h : runIteration env s = .ok (sf, outs)) :
    outs.length = 4 ∧ s.canonical.length ≤ sf.canonical.length := by
  unfold runIteration at h
  split at h
  · exact absurd h (by simp)
  next s2 o1 h1 =>
    split at h
    · exact absurd h (by simp)
    next s4 o2 h2 =>
      split at h
      · exact absurd h (by simp)
      next s6 o3 h3 =>
        split at h
        · exact absurd h (by simp)
        next s8 o4 h4 =>
          have e1 := verify_image_canonical_le env _ _ _ h1
          have e2 := verify_image_canonical_le env _ _ _ h2
          have e3 := verify_image_canonical_le env _ _ _ h3
          have e4 := verify_image_canonical_le env _ _ _ h4
          rw [run_imagemagick_canonical] at e1
          rw [run_optipng_canonical] at e2
          rw [run_advpng_canonical] at e3
          rw [run_oxipng_canonical] at e4
          obtain ⟨rfl, rfl⟩ : sf = s8 ∧ outs = [o1, o2, o3, o4] := by
            simpa using h.symm
          constructor
          · rfl
          · exact Nat.le_trans e1 (Nat.le_trans e2 (Nat.le_trans e3 e4))

/-- When the iteration panics, the loop propagates the panic. -/
theorem optGo_eq_err (env : Env) (c t : Bytes) (e : FileState)
    (h : runIteration env ⟨c, t⟩ = .error e) :
    optGo env c t = .error e := by
  rw [optGo]
  simp [h]

/-- When the iteration succeeds, the loop stops after it: a successful
iteration can never make the canonical file strictly smaller, so the loop
condition fails after the first iteration. -/
theorem optGo_eq_ok (env : Env) (c t : Bytes) (sf : FileState) (outs : List Outcome)
    (h : runIteration env ⟨c, t⟩ = .ok (sf, outs)) :
    optGo env c t = .ok ⟨sf.canonical, sf.tmp, 1, outs, c.length, sf.canonical.length⟩ := by
  have hle := (runIteration_ok_parts env ⟨c, t⟩ sf outs h).2
  rw [optGo]
  simp only [h]
  rw [dif_neg (Nat.not_lt.mpr hle)]

theorem optimize_eq_err (env : Env) (c : Bytes) (e : FileState)
    (h : runIteration env ⟨c, c⟩ = .error e) :
    optimize env c = .error ⟨e.canonical, some e.tmp⟩ := by
  unfold optimize
  rw [optGo_eq_err env c c e h]

theorem optimize_eq_ok (env : Env) (c : Bytes) (sf : FileState) (outs : List Outcome)
    (h : runIteration env ⟨c, c⟩ = .ok (sf, outs)) :
    optimize env c =
      .ok { finalCanonical := sf.canonical
          , finalTmp := none
          , iterations := 1
          , outcomes := outs
          , originalSize := c.length
          , finalSize := sf.canonical.length
          , lastDelta := (sf.canonical.length : Int) - (c.length : Int) } := by
  unfold optimize
  rw [optGo_eq_ok env c c sf outs h]
  simp [cleanupTmp]

/-- On every non-panicking path the cleanup after the loop removes the
working-copy file. -/
theorem optimize_ok_finalTmp (env : Env) (c : Bytes) (r : RunInfo)
    (h : optimize env c = .ok r) : r.finalTmp = none := by
  unfold optimize at h
  cases hGo : optGo env c c with
  | error e =>
    rw [hGo] at h
    exact absurd h (by simp)
  | ok lo =>
    rw [hGo] at h
    injection h with h
    rw [← h]
    simp [cleanupTmp]

/-- The net effect of the four advpng invocations on the working copy:
level 1 through level 4, each applied to the previous level's output. -/
theorem advpngRuns_fst (env : Env) (t : Bytes) :
    (advpngRuns env t).1 =
      env.advpng 4 (env.advpng 3 (env.advpng 2 (env.advpng 1 t))) := by
  simp [advpngRuns, compressionLevels]

/-- The four collected advpng exit statuses, in invocation order. -/
theorem advpngRuns_snd (env : Env) (t : Bytes) :
    (advpngRuns env t).2 =
      [env.advpngOk 1 t,
       env.advpngOk 2 (env.advpng 1 t),
       env.advpngOk 3 (env.advpng 2 (env.advpng 1 t)),
       env.advpngOk 4 (env.advpng 3 (env.advpng 2 (env.advpng 1 t)))] := by
  simp [advpngRuns, compressionLevels]

theorem advpngRuns_decode (env : Env)
    (hadv : ∀ lvl b, env.decode (env.advpng lvl b) = env.decode b) (t : Bytes) :
    env.decode (advpngRuns env t).1 = env.decode t := by
  rw [advpngRuns_fst, hadv, hadv, hadv, hadv]

/-- When the working copy decodes to the same pixels as the canonical file,
verify_image takes one of the two pixel-identical branches: the canonical
file is untouched and the resulting working copy still decodes to the same
pixels. -/
theorem verify_image_pres (env : Env) (s : FileState)
    (hdec : env.decode s.tmp = env.decode s.canonical) :
    ∃ t2 o, verify_image env s = .ok (⟨s.canonical, t2⟩, o)
      ∧ env.decode t2 = env.decode s.canonical := by
  have hpi : images_are_identical env s.canonical s.tmp = true := by
    simp [images_are_identical, hdec]
  by_cases hsz : s.canonical.length < s.tmp.length
  · exact ⟨s.canonical, Outcome.improved, by simp [verify_image, hpi, hsz], rfl⟩
  · exact ⟨s.tmp, Outcome.nogain, by simp [verify_image, hpi, hsz], hdec⟩

/-- Under pixel-preserving engines, a whole iteration leaves the canonical
file byte-for-byte untouched, and the working copy it leaves behind still
decodes to the canonical pixels. -/
theorem runIteration_pres (env : Env) (c t : Bytes)
    (hpres : PixelPreserving env) :
    ∃ tf outs, runIteration env ⟨c, t⟩ = .ok (⟨c, tf⟩, outs)
      ∧ env.decode tf = env.decode c := by
  obtain ⟨hm, ho, ha, hx⟩ := hpres
  obtain ⟨t2, o1, h1, hd1⟩ := verify_image_pres env ⟨c, env.magick c⟩ (by simp [hm])
  obtain ⟨t3, o2, h2, hd2⟩ := verify_image_pres env ⟨c, env.optipng c⟩ (by simp [ho])
  obtain ⟨t4, o3, h3, hd3⟩ := verify_image_pres env ⟨c, (advpngRuns env t3).1⟩
    (by simpa [advpngRuns_decode env ha t3] using hd2)
  obtain ⟨t5, o4, h4, hd4⟩ := verify_image_pres env ⟨c, env.oxipng c⟩ (by simp [hx])
  refine ⟨t5, [o1, o2, o3, o4], ?_, hd4⟩
  unfold runIteration
  simp only [run_imagemagick, run_optipng, run_advpng, run_oxipng]
  simp only [h1, h2, h3, h4]

/-- The stem of a name of the form stem dot png: everything before the final
dot. -/
theorem file_stem_png (s : List Char) :
    file_stem (s ++ (".png".toList)) = s := by
  have hmem : '.' ∈ s ++ (".png".toList) := by
    simp [String.toList]
  rw [file_stem, if_pos hmem]
  have : (s ++ (".png".toList)).reverse = ('g' :: 'n' :: 'p' :: '.' :: s.reverse) := by
    simp [String.toList]
  rw [this]
  simp [List.dropWhile]

/-- runTasks reports no result exactly when some task's optimize panicked. -/
theorem runTasks_eq_none_iff (ts : List Task) :
    runTasks ts = none ↔ ∃ t, t ∈ ts ∧ (optimize t.env t.bytes).toOption = none := by
  induction ts with
  | nil => simp [runTasks]
  | cons t ts ih =>
    cases ho : (optimize t.env t.bytes).toOption with
    | none =>
      have hrt : runTasks (t :: ts) = none := by simp [runTasks, ho]
      rw [hrt]
      constructor
      · intro _
        exact ⟨t, List.mem_cons_self t ts, ho⟩
      · intro _
        rfl
    | some r =>
      simp only [runTasks, ho, List.mem_cons]
      rw [Option.map_eq_none']
      rw [ih]
      constructor
      · rintro ⟨u, hu, hnone⟩
        exact ⟨u, Or.inr hu, hnone⟩
      · rintro ⟨u, hu | hu, hnone⟩
        · rw [hu] at hnone
          rw [ho] at hnone
          exact absurd hnone (by simp)
        · exact ⟨u, hu, hnone⟩

/-! The claims. -/

/-- C1: the claim says the canonical file is never left with pixel content
differing from the original input, and that the final on-disk pixel content
equals the original.  The code violates it: when an engine alters pixels
while growing the file, the false-true branch of verify_image copies the
altered working copy over the pristine canonical file, so the final pixel
content differs from the original. -/
theorem c1_losslessness_violated :
    ∃ r, optimize envCorruptGrow [0, 0] = .ok r
      ∧ envCorruptGrow.decode r.finalCanonical ≠ envCorruptGrow.decode [0, 0] := by
  refine ⟨_, optimize_eq_ok envCorruptGrow [0, 0] ⟨[1, 1, 1], [1, 1, 1]⟩
    [Outcome.corrupted, Outcome.nogain, Outcome.nogain, Outcome.nogain] rfl, ?_⟩
  decide

/-- C2: whenever verification observes pixel_identical false and
image_got_smaller true, verify_image copies the backup_image argument over
the canonical file - afterwards the canonical contents equal the backup's
bytes exactly - and flags the visible Corrupted outcome. -/
theorem c2_rollback_branch (env : Env) (s : FileState)
    (hpix : env.decode s.canonical ≠ env.decode s.tmp)
    (hsz : s.canonical.length < s.tmp.length) :
    verify_image env s = .ok (⟨s.tmp, s.tmp⟩, Outcome.corrupted) := by
  have hpi : images_are_identical env s.canonical s.tmp = false := by
    simp [images_are_identical, hpix]
  have hs2 : decide (s.canonical.length < s.tmp.length) = true := by simp [hsz]
  simp [verify_image, hpi, hs2]

theorem c2_rollback_branch_witness :
    verify_image envId ⟨[0, 0], [1, 1, 1]⟩ =
      .ok (⟨[1, 1, 1], [1, 1, 1]⟩, Outcome.corrupted) :=
  c2_rollback_branch envId ⟨[0, 0], [1, 1, 1]⟩ (by decide) (by decide)

/-- C3: the claim says the final size never exceeds the original size.  The
code violates it: the only statement that ever rewrites the canonical file
is the false-true branch of verify_image, which fires exactly when the
working copy is strictly larger, so the canonical file can only grow.  On
the same corrupting-and-growing engine as C1, the file ends larger than it
started. -/
theorem c3_monotonic_size_violated :
    ∃ r, optimize envCorruptGrow [0, 0] = .ok r ∧ r.originalSize < r.finalSize := by
  refine ⟨_, optimize_eq_ok envCorruptGrow [0, 0] ⟨[1, 1, 1], [1, 1, 1]⟩
    [Outcome.corrupted, Outcome.nogain, Outcome.nogain, Outcome.nogain] rfl, ?_⟩
  decide

/-- C4, counterexample: the claim says an Invalid outcome aborts only the
affected task and the end-of-run aggregate report is still produced.  In
the code the Invalid branch panics, the panic propagates out of the
parallel for_each, and the summary lines of main are never reached: on a
two-task run whose first task hits Invalid, no summary is produced. -/
theorem c4_invalid_aborts_report_cex :
    optimize envInvalid [0, 0] = .error ⟨[0, 0], some [5]⟩
    ∧ mainRun [⟨envInvalid, [0, 0]⟩, ⟨envId, [0]⟩] = none := by
  have h := optimize_eq_err envInvalid [0, 0] ⟨[0, 0], [5]⟩ rfl
  refine ⟨h, ?_⟩
  simp [mainRun, runTasks, h, Except.toOption]

/-- C4, amended: an Invalid verification outcome panics the task; the panic
propagates through the parallel loop, so the end-of-run summary is produced
exactly when no task panicked. -/
theorem c4_invalid_no_report_iff (ts : List Task) :
    mainRun ts = none ↔ ∃ t, t ∈ ts ∧ (optimize t.env t.bytes).toOption = none := by
  rw [← runTasks_eq_none_iff]
  unfold mainRun
  cases h : runTasks ts with
  | none => simp [h]
  | some rs => simp [h]

/-- C5: the claim says the run summary reports the net delta, in particular
a negative one when the total size shrank.  The delta line computes
total_after - total_before in u64: with totals 100 before and 90 after the
subtraction underflows - the debug overflow assertion panics (release wraps
around) - so the negative net delta of minus ten is never reported. -/
theorem c5_net_delta_underflow :
    reportNetDelta 100 90 = none ∧ (90 : Int) - 100 = -10 := by
  constructor
  · decide
  · decide

/-- C6: the four engine invocations write only to the working copy, the
canonical file is rewritten only in the corrupted branch of verify_image
(which copies the working copy over it), the Improved branch copies the
canonical file over the working copy, and consequently under
pixel-preserving engines the canonical file is byte-for-byte unchanged for
the whole task. -/
theorem c6_frame_conditions (env : Env) (c : Bytes) (s s' : FileState) (o : Outcome)
    (hpres : PixelPreserving env)
    (hv : verify_image env s = .ok (s', o)) :
    (run_imagemagick env s).1.canonical = s.canonical
    ∧ (run_optipng env s).1.canonical = s.canonical
    ∧ (run_advpng env s).1.canonical = s.canonical
    ∧ (run_oxipng env s).1.canonical = s.canonical
    ∧ (s'.canonical = s.canonical ∨ (o = Outcome.corrupted ∧ s'.canonical = s.tmp))
    ∧ (o = Outcome.improved → s'.canonical = s.canonical ∧ s'.tmp = s.canonical)
    ∧ (∃ r, optimize env c = .ok r ∧ r.finalCanonical = c) := by
  refine ⟨rfl, rfl, rfl, rfl, ?_, ?_, ?_⟩
  · rcases verify_image_ok_cases env s s' o hv with ⟨_, _, _, h4⟩ | ⟨_, _, _, h4⟩ | ⟨ho, _, _, h4⟩
    · left; rw [h4]
    · left; rw [h4]
    · right; exact ⟨ho, by rw [h4]⟩
  · intro himp
    rcases verify_image_ok_cases env s s' o hv with ⟨_, _, _, h4⟩ | ⟨hno, _, _, _⟩ | ⟨hco, _, _, _⟩
    · rw [h4]; exact ⟨rfl, rfl⟩
    · rw [himp] at hno; exact absurd hno (by decide)
    · rw [himp] at hco; exact absurd hco (by decide)
  · obtain ⟨tf, outs, hIt, _⟩ := runIteration_pres env c c hpres
    exact ⟨_, optimize_eq_ok env c ⟨c, tf⟩ outs hIt, rfl⟩

theorem c6_frame_conditions_witness :
    (run_imagemagick envId ⟨[0], [0]⟩).1.canonical = ([0] : Bytes)
    ∧ (run_optipng envId ⟨[0], [0]⟩).1.canonical = ([0] : Bytes)
    ∧ (run_advpng envId ⟨[0], [0]⟩).1.canonical = ([0] : Bytes)
    ∧ (run_oxipng envId ⟨[0], [0]⟩).1.canonical = ([0] : Bytes)
    ∧ (([0] : Bytes) = [0] ∨ (Outcome.nogain = Outcome.corrupted ∧ ([0] : Bytes) = [0]))
    ∧ (Outcome.nogain = Outcome.improved → ([0] : Bytes) = [0] ∧ ([0] : Bytes) = [0])
    ∧ (∃ r, optimize envId [0, 0] = .ok r ∧ r.finalCanonical = [0, 0]) :=
  c6_frame_conditions envId [0, 0] ⟨[0], [0]⟩ ⟨[0], [0]⟩ Outcome.nogain
    ⟨fun _ => rfl, fun _ => rfl, fun _ _ => rfl, fun _ => rfl⟩ rfl

/-- C7: the convergence loop always executes its first iteration, terminates
(the iteration count is bounded by the initial size plus one), and performs
a further iteration exactly when the canonical file's size strictly
decreased during the previous one. -/
theorem c7_loop_structure (env : Env) (c : Bytes) (sf : FileState)
    (outs : List Outcome) (r : RunInfo)
    (hr : optimize env c = .ok r)
    (h1 : runIteration env ⟨c, c⟩ = .ok (sf, outs)) :
    1 ≤ r.iterations ∧ r.iterations ≤ c.length + 1
      ∧ (r.iterations = 1 ↔ ¬ sf.canonical.length < c.length) := by
  have hopt := optimize_eq_ok env c sf outs h1
  rw [hopt] at hr
  injection hr with hr
  rw [← hr]
  refine ⟨Nat.le_refl 1, Nat.le_add_left 1 c.length, ?_⟩
  constructor
  · intro _
    exact Nat.not_lt.mpr (runIteration_ok_parts env ⟨c, c⟩ sf outs h1).2
  · intro _
    rfl

theorem c7_loop_structure_witness :
    1 ≤ runInfoId.iterations ∧ runInfoId.iterations ≤ ([0, 0] : Bytes).length + 1
      ∧ (runInfoId.iterations = 1 ↔
          ¬ (FileState.mk [0, 0] [0, 0]).canonical.length < ([0, 0] : Bytes).length) :=
  c7_loop_structure envId [0, 0] ⟨[0, 0], [0, 0]⟩
    [Outcome.nogain, Outcome.nogain, Outcome.nogain, Outcome.nogain] runInfoId
    (optimize_eq_ok envId [0, 0] ⟨[0, 0], [0, 0]⟩
      [Outcome.nogain, Outcome.nogain, Outcome.nogain, Outcome.nogain] rfl)
    rfl

/-- C8, counterexample: the claim says the working-copy file is removed on
every exit path, including early aborts from an Invalid outcome.  On the
Invalid path the code panics before the cleanup after the loop, so the
working-copy file is left on disk. -/
theorem c8_cleanup_skipped_cex :
    ∃ a, optimize envInvalid [0, 0] = .error a ∧ a.tmpFile ≠ none := by
  refine ⟨_, optimize_eq_err envInvalid [0, 0] ⟨[0, 0], [5]⟩ rfl, ?_⟩
  simp

/-- C8, amended: the working copy, named from the original stem with the
_tmp.png suffix and placed in the same directory, is removed on every
non-panicking exit from the loop; when a task aborts through the Invalid
panic the cleanup is skipped. -/
theorem c8_cleanup_amended (env : Env) (c : Bytes) (r : RunInfo)
    (p : ImgPath) (s : List Char)
    (h : optimize env c = .ok r) (hp : p.fname = s ++ (".png".toList)) :
    r.finalTmp = none
    ∧ (tmp_path_of p).dir = p.dir
    ∧ (tmp_path_of p).fname = s ++ ("_tmp.png".toList) := by
  refine ⟨optimize_ok_finalTmp env c r h, rfl, ?_⟩
  simp only [tmp_path_of, hp]
  rw [file_stem_png]

theorem c8_cleanup_amended_witness :
    runInfoId.finalTmp = none
    ∧ (tmp_path_of ⟨[], "a.png".toList⟩).dir = ([] : List String)
    ∧ (tmp_path_of ⟨[], "a.png".toList⟩).fname = ['a'] ++ ("_tmp.png".toList) :=
  c8_cleanup_amended envId [0, 0] runInfoId ⟨[], "a.png".toList⟩ ['a']
    (optimize_eq_ok envId [0, 0] ⟨[0, 0], [0, 0]⟩
      [Outcome.nogain, Outcome.nogain, Outcome.nogain, Outcome.nogain] rfl)
    rfl

/-- C9: when the single iteration run on a file leaves the canonical size
unchanged (the already-converged case), optimize performs exactly one
iteration with all four steps individually verified, reports zero net size
change, and terminates without further iterations. -/
theorem c9_idempotence (env : Env) (c : Bytes) (sf : FileState) (outs : List Outcome)
    (h : runIteration env ⟨c, c⟩ = .ok (sf, outs))
    (hsz : sf.canonical.length = c.length) :
    ∃ r, optimize env c = .ok r ∧ r.iterations = 1 ∧ r.outcomes = outs
      ∧ outs.length = 4 ∧ r.finalSize = r.originalSize ∧ r.lastDelta = 0 := by
  refine ⟨_, optimize_eq_ok env c sf outs h, rfl, rfl,
    (runIteration_ok_parts env ⟨c, c⟩ sf outs h).1, hsz, ?_⟩
  simp [hsz]

theorem c9_idempotence_witness :
    ∃ r, optimize envId [0, 0] = .ok r ∧ r.iterations = 1
      ∧ r.outcomes = [Outcome.nogain, Outcome.nogain, Outcome.nogain, Outcome.nogain]
      ∧ ([Outcome.nogain, Outcome.nogain, Outcome.nogain, Outcome.nogain] : List Outcome).length = 4
      ∧ r.finalSize = r.originalSize ∧ r.lastDelta = 0 :=
  c9_idempotence envId [0, 0] ⟨[0, 0], [0, 0]⟩
    [Outcome.nogain, Outcome.nogain, Outcome.nogain, Outcome.nogain] rfl rfl

/-- C10: run_advpng invokes the tool exactly four times, at the strictly
increasing compression levels one through four, each invocation running in
place on the working copy left by the previous one, never touching the
canonical file, and it reports success exactly when all four invocations
succeed. -/
theorem c10_advpng_levels (env : Env) (s : FileState) :
    compressionLevels = [1, 2, 3, 4]
    ∧ List.Chain' (fun a b => a < b) compressionLevels
    ∧ (advpngRuns env s.tmp).2.length = 4
    ∧ (run_advpng env s).1.canonical = s.canonical
    ∧ (run_advpng env s).1.tmp =
        env.advpng 4 (env.advpng 3 (env.advpng 2 (env.advpng 1 s.tmp)))
    ∧ ((run_advpng env s).2 = true ↔
        (env.advpngOk 1 s.tmp = true
         ∧ env.advpngOk 2 (env.advpng 1 s.tmp) = true
         ∧ env.advpngOk 3 (env.advpng 2 (env.advpng 1 s.tmp)) = true
         ∧ env.advpngOk 4 (env.advpng 3 (env.advpng 2 (env.advpng 1 s.tmp))) = true)) := by
  refine ⟨rfl, by simp [compressionLevels, List.chain'_cons], ?_, rfl, ?_, ?_⟩
  · rw [advpngRuns_snd]
    rfl
  · exact advpngRuns_fst env s.tmp
  · show ((advpngRuns env s.tmp).2.all (fun b => b)) = true ↔ _
    rw [advpngRuns_snd]
    simp [List.all_cons, Bool.and_eq_true, and_assoc]

end Woptipng
